import Mathlib

/-!
Verification of the grade computation and promotion/retention rule engine of
the SmartDepedForms portal (`depedsfportal/models.py`).

Conventions of the shallow embedding:
* Django `DecimalField` values (`max_digits=5, decimal_places=2`, validators
  `0 ≤ v ≤ 100`) are exact multiples of 0.01; they are modelled as natural
  numbers in hundredths ("centi-points"): the stored value `v` is represented
  by `100 * v`, e.g. a rating of 75.00 is `7500` and a quarter score of 60.01
  is `6001`.  The scaling is exact, so every comparison of the source
  (`< 75`, `< 60`, `>= 75`) becomes the corresponding comparison with
  `7500`/`6000` in centi-points.
* Python's `round(d, 2)` on a `Decimal` quantises with the default context
  rounding mode `ROUND_HALF_EVEN` (banker's rounding).  On centi-point
  values, every `round(total / count, 2)` of the source becomes
  `rheDiv totalCenti count`: banker's rounding of the exact rational
  quotient to the nearest integer number of centi-points.  The theorem
  `rheDiv_eq_rhe` below certifies that `rheDiv` is indeed round-half-even of
  the exact rational quotient.  (Python's `Decimal` division runs at 28
  significant digits; on the 2-decimal-place values this application stores,
  quantising the 28-digit quotient coincides with quantising the exact
  quotient, so exact arithmetic is a faithful model.)
* Nullable fields become `Option`; Python truthiness of an optional
  `Decimal` (`if self.field:`) is `qTruthy`: present and nonzero, so
  `Decimal("0.00")` is falsy.  `DateField` values matter only through their
  presence (a `date` object is always truthy), so dates are `Option Nat`.
* A `ValidationError` raised by `clean()` propagates out of `save()` before
  anything is persisted; `save` therefore returns `Except String _`, and an
  `Except.error` result leaves the stored row untouched.
-/

namespace DepedSF

/-- Round-half-even (banker's rounding) of the rational `x` to an integer:
the rounding mode used by Python's `round` on `Decimal` values. -/
def rhe (x : ℚ) : ℤ :=
  if x - (⌊x⌋ : ℚ) < 1/2 then ⌊x⌋
  else if 1/2 < x - (⌊x⌋ : ℚ) then ⌊x⌋ + 1
  else if ⌊x⌋ % 2 = 0 then ⌊x⌋ else ⌊x⌋ + 1

/-- Banker's rounding of the quotient `n / d` of naturals to the nearest
natural number, computed with integer arithmetic only; `rheDiv_eq_rhe`
proves it agrees with `rhe` on the exact rational quotient. -/
def rheDiv (n d : ℕ) : ℕ :=
  if 2 * (n % d) < d then n / d
  else if d < 2 * (n % d) then n / d + 1
  else if (n / d) % 2 = 0 then n / d else n / d + 1

/-- Python truthiness of an optional numeric field: present and nonzero. -/
def qTruthy : Option ℕ → Bool
  | none => false
  | some x => x != 0

/-- The fields of the `SubjectGrade` model that the rule engine reads or
writes (all scores in centi-points). -/
structure SubjectGrade where
  quarter_1 : Option ℕ
  quarter_2 : Option ℕ
  quarter_3 : Option ℕ
  quarter_4 : Option ℕ
  final_rating : Option ℕ
  needs_remedial : Bool
  remedial_conducted_from : Option ℕ
  remedial_conducted_to : Option ℕ
  remedial_mark : Option ℕ
  recomputed_final_grade : Option ℕ
  remarks : String
deriving DecidableEq

namespace SubjectGrade

/-- The non-null quarterly scores of a subject grade:
`[q for q in quarters if q is not None]`. -/
def validQuarters (g : SubjectGrade) : List ℕ :=
  [g.quarter_1, g.quarter_2, g.quarter_3, g.quarter_4].filterMap id

/-- `SubjectGrade.calculate_final_rating`: average of the non-null
quarterly ratings rounded to 2 decimal places, or `None` when no quarter is
set. -/
def calculate_final_rating (g : SubjectGrade) : Option ℕ :=
  if (validQuarters g).isEmpty then none
  else some (rheDiv (validQuarters g).sum (validQuarters g).length)

/-- `SubjectGrade.get_final_rating`: `if self.recomputed_final_grade:` is a
truthiness test, so a zero recomputed grade falls through to
`final_rating`. -/
def get_final_rating (g : SubjectGrade) : Option ℕ :=
  if qTruthy g.recomputed_final_grade then g.recomputed_final_grade
  else g.final_rating

/-- First statement of `SubjectGrade.save`:
`self.final_rating = self.calculate_final_rating()`. -/
def recomputeRatingStep (g : SubjectGrade) : SubjectGrade :=
  { g with final_rating := calculate_final_rating g }

/-- The "determine if remedial is needed" block of `SubjectGrade.save`:
`if self.final_rating and self.final_rating < 75` sets the flag,
`elif self.final_rating and self.final_rating >= 75 and not
self.recomputed_final_grade` clears it; both guards are truthiness tests
(`75` is `7500` centi-points). -/
def remedialFlagStep (g : SubjectGrade) : SubjectGrade :=
  if qTruthy g.final_rating && decide (g.final_rating.getD 0 < 7500) then
    { g with needs_remedial := true }
  else if qTruthy g.final_rating && decide (7500 ≤ g.final_rating.getD 0)
      && !qTruthy g.recomputed_final_grade then
    { g with needs_remedial := false }
  else g

/-- The "auto-generate remarks" block of `SubjectGrade.save`: when
`final_rating` is truthy, write Passed/Failed according to
`get_final_rating()`. -/
def remarksStep (g : SubjectGrade) : SubjectGrade :=
  if qTruthy g.final_rating then
    if decide (7500 ≤ g.get_final_rating.getD 0) then
      { g with remarks := "Passed" }
    else
      { g with remarks := "Failed" }
  else g

/-- `SubjectGrade.clean`: the missing-dates validation (only reached when
`needs_remedial` is set), then the remedial recomputation, whose guard
`if self.remedial_mark and self.final_rating:` is a truthiness test. -/
def clean (g : SubjectGrade) : Except String SubjectGrade :=
  if g.needs_remedial && qTruthy g.remedial_mark
      && !(g.remedial_conducted_from.isSome
            && g.remedial_conducted_to.isSome) then
    Except.error "Remedial dates must be provided if remedial mark is entered"
  else if qTruthy g.remedial_mark && qTruthy g.final_rating then
    Except.ok
      { g with
        recomputed_final_grade :=
          some (rheDiv (g.final_rating.getD 0 + g.remedial_mark.getD 0) 2) }
  else Except.ok g

/-- `SubjectGrade.save`: recompute the derived fields in source order, run
`clean` (whose `ValidationError` aborts the save before persistence), then
persist.  The returned state is the row as stored; on `Except.error`
nothing is stored. -/
def save (g : SubjectGrade) : Except String SubjectGrade :=
  clean (remarksStep (remedialFlagStep (recomputeRatingStep g)))

/-- `SubjectGrade.update_final_rating`: the same recompute/flag/remarks
sequence as `save`, persisted without running `clean`. -/
def update_final_rating (g : SubjectGrade) : SubjectGrade :=
  remarksStep (remedialFlagStep (recomputeRatingStep g))

end SubjectGrade

/-- The fields of the `AcademicRecord` model that the rule engine reads or
writes.  The nullable `section` / `adviser_teacher` foreign keys only
matter through identity and presence. -/
structure AcademicRecord where
  student : String
  school : ℕ
  grade_level : ℤ
  sectionRef : Option ℕ
  school_year : String
  adviser_teacher : Option ℕ
  general_average : Option ℕ
  remarks : String
  subject_grades : List SubjectGrade
deriving DecidableEq

namespace AcademicRecord

/-- The queryset
`self.subject_grades.filter(final_rating__isnull=False)` used by both the
aggregator and the classifier. -/
def determinedGrades (r : AcademicRecord) : List SubjectGrade :=
  r.subject_grades.filter (fun g => g.final_rating.isSome)

/-- `AcademicRecord.calculate_general_average`: mean of
`get_final_rating()` over the subject grades with a non-null
`final_rating`, rounded to 2 decimal places; `None` when there is no such
subject.  The middle branch mirrors the (dead) second `count == 0` check of
the source. -/
def calculate_general_average (r : AcademicRecord) : Option ℕ :=
  if (determinedGrades r).isEmpty then none
  else if (determinedGrades r).length = 0 then none
  else some (rheDiv
    ((determinedGrades r).map (fun g => g.get_final_rating.getD 0)).sum
    (determinedGrades r).length)

/-- The failing-grade predicate of `determine_remarks`:
`Q(final_rating__lt=75) | Q(final_rating__isnull=True)` under SQL
three-valued logic (`NULL < 75` is not true). -/
def isFailingOriginal (g : SubjectGrade) : Bool :=
  match g.final_rating with
  | some f => decide (f < 7500)
  | none => true

/-- The critical-failure predicate of `determine_remarks`:
`final_rating__lt=60` (`NULL < 60` is not true). -/
def isCriticalOriginal (g : SubjectGrade) : Bool :=
  match g.final_rating with
  | some f => decide (f < 6000)
  | none => false

/-- `AcademicRecord.determine_remarks`: the promotion/retention
classifier.  Both failure checks run over the queryset already filtered to
`final_rating__isnull=False`. -/
def determine_remarks (r : AcademicRecord) : String :=
  if (determinedGrades r).isEmpty then ""
  else
    match calculate_general_average r with
    | none => ""
    | some general_avg =>
      if r.grade_level ≤ 3 then
        if (determinedGrades r).countP isFailingOriginal = 0 then "PROMOTED"
        else "RETAINED"
      else
        if decide (7500 ≤ general_avg)
            && decide ((determinedGrades r).countP isFailingOriginal = 0)
        then "PROMOTED"
        else if decide (7500 ≤ general_avg)
            && decide ((determinedGrades r).countP isFailingOriginal ≤ 2)
            && !((determinedGrades r).any isCriticalOriginal) then "PASSED"
        else "FAILED"

/-- `AcademicRecord.update_computed_fields`: refresh `general_average`,
and refresh `remarks` only when it is not a manual PROMOTED/RETAINED
decision.  (`determine_remarks` does not read `general_average`, so
evaluating it on the incoming record is faithful.) -/
def update_computed_fields (r : AcademicRecord) : AcademicRecord :=
  if r.remarks = "PROMOTED" ∨ r.remarks = "RETAINED" then
    { r with general_average := calculate_general_average r }
  else
    { r with general_average := calculate_general_average r,
             remarks := determine_remarks r }

/-- `AcademicRecord.retain`: the explicit operator action. -/
def retain (r : AcademicRecord) : AcademicRecord :=
  { r with remarks := "RETAINED" }

end AcademicRecord

/-- The fields of the `LearningArea` model used by subject seeding. -/
structure LearningArea where
  code : String
  name : String
  applicable_grades : String
  is_core : Bool
  is_optional : Bool
  order : ℤ
deriving DecidableEq

/-- `LearningArea.get_subjects_for_grade`: core areas applicable to the
given grade level (matched against the stringified grade) or to `ALL`. -/
def get_subjects_for_grade (areas : List LearningArea) (grade_level : ℤ) :
    List LearningArea :=
  (areas.filter (fun a =>
    a.applicable_grades = toString grade_level
      || a.applicable_grades = "ALL")).filter (fun a => a.is_core)

/-- A freshly created `SubjectGrade` row with Django's field defaults. -/
def newSubjectGrade : SubjectGrade :=
  { quarter_1 := none, quarter_2 := none, quarter_3 := none,
    quarter_4 := none, final_rating := none, needs_remedial := false,
    remedial_conducted_from := none, remedial_conducted_to := none,
    remedial_mark := none, recomputed_final_grade := none, remarks := "" }

/-- Python `str.split("-")` on the character list of a string: every
occurrence of `-` separates, and empty parts are kept (`"".split("-")` is
`[""]`, `"a-".split("-")` is `["a", ""]`). -/
def pySplitDash : List Char → List (List Char)
  | [] => [[]]
  | c :: rest =>
    if c = '-' then [] :: pySplitDash rest
    else
      match pySplitDash rest with
      | [] => [[c]]
      | part :: parts => (c :: part) :: parts

/-- Whitespace stripped by Python's `int` before parsing (the form-feed
and vertical-tab cases are irrelevant to school-year labels and omitted). -/
def isPyIntSpace (c : Char) : Bool :=
  c = ' ' || c = '\t' || c = '\n' || c = '\r'

/-- Model of Python `int(s)` on a character list: optional surrounding
whitespace, an optional sign, then at least one decimal digit, else a
`ValueError` (`none`).  (Underscore digit grouping, accepted by `int` since
Python 3.6, does not occur in school-year labels and is not modelled.) -/
def pyIntChars (cs0 : List Char) : Option ℤ :=
  let cs :=
    ((cs0.dropWhile isPyIntSpace).reverse.dropWhile isPyIntSpace).reverse
  let signAndDigits : ℤ × List Char :=
    match cs with
    | '-' :: rest => (-1, rest)
    | '+' :: rest => (1, rest)
    | _ => (1, cs)
  let ds := signAndDigits.2
  if ds.isEmpty || !(ds.all Char.isDigit) then none
  else some (signAndDigits.1
    * (ds.foldl (fun n c => 10 * n + (c.toNat - 48)) 0 : ℕ))

/-- Model of Python `int(s)`. -/
def pyInt (s : String) : Option ℤ :=
  pyIntChars s.data

/-- The school-year computation inside `AcademicRecord.promote`:
`start_year, end_year = map(int, self.school_year.split("-"))` increments
both components on success; any `ValueError` (a part that is not an
integer literal, or a number of parts other than two) keeps the current
label. -/
def nextSchoolYearLabel (school_year : String) : String :=
  match (pySplitDash school_year.data).map pyIntChars with
  | [some start_year, some end_year] =>
    toString (start_year + 1) ++ "-" ++ toString (end_year + 1)
  | _ => school_year

/-- The record store: the `LearningArea` table and the `AcademicRecord`
table (whose rows carry their own `SubjectGrade` children). -/
structure Database where
  areas : List LearningArea
  records : List AcademicRecord
deriving DecidableEq

/-- The unique-key filter of `promote`:
`student=..., grade_level=..., school_year=...`. -/
def matchesKey (student : String) (grade : ℤ) (sy : String)
    (r : AcademicRecord) : Bool :=
  r.student = student && r.grade_level = grade && r.school_year = sy

/-- `AcademicRecord.objects.create(...)` together with the subject-seeding
part of the `post_save` signal, which auto-populates a `SubjectGrade` row
for every core learning area applicable to the new record's grade level. -/
def createAcademicRecord (db : Database) (student : String) (school : ℕ)
    (grade : ℤ) (sectionRef : Option ℕ) (sy : String)
    (adviser : Option ℕ) : AcademicRecord × Database :=
  ({ student := student, school := school, grade_level := grade,
     sectionRef := sectionRef, school_year := sy,
     adviser_teacher := adviser, general_average := none, remarks := "",
     subject_grades :=
       (get_subjects_for_grade db.areas grade).map
         (fun _ => newSubjectGrade) },
   { db with records := db.records ++
      [{ student := student, school := school, grade_level := grade,
         sectionRef := sectionRef, school_year := sy,
         adviser_teacher := adviser, general_average := none, remarks := "",
         subject_grades :=
           (get_subjects_for_grade db.areas grade).map
             (fun _ => newSubjectGrade) }] })

/-- `AcademicRecord.promote`: no transition at grade 10 or above;
otherwise reuse the record matching (student, next grade, next school
year) or create a fresh one with `section=None` and
`adviser_teacher=None`. -/
def promote (r : AcademicRecord) (db : Database) :
    Option AcademicRecord × Database :=
  if 10 ≤ r.grade_level then (none, db)
  else
    match db.records.find?
        (matchesKey r.student (r.grade_level + 1)
          (nextSchoolYearLabel r.school_year)) with
    | some existing => (some existing, db)
    | none =>
      ((createAcademicRecord db r.student r.school (r.grade_level + 1)
          none (nextSchoolYearLabel r.school_year) none).1,
       (createAcademicRecord db r.student r.school (r.grade_level + 1)
          none (nextSchoolYearLabel r.school_year) none).2)

/-- The student-status part of the `post_save` signal
`update_student_status_on_academic_change`: PENDING becomes ENROLLED on a
newly created record, and a grade-10 record with remarks PROMOTED makes
the student GRADUATED. -/
def studentStatusAfterRecordSave (created : Bool) (r : AcademicRecord)
    (status : String) : String :=
  if r.grade_level = 10 && (r.remarks = "PROMOTED" : Bool) then "GRADUATED"
  else if created && (status = "PENDING" : Bool) then "ENROLLED"
  else status

/-! ### Claim-side definitions

The following definitions transcribe the wording of the specification (not
the source); they exist to be compared against the source-derived
definitions above. -/

/-- The grade-4-and-above classification rule as the spec words it, taking
the general average, the failing-subject count `F` and the
critical-failure flag `C` as inputs (thresholds in centi-points). -/
def juniorHighClassify (avg : ℕ) (F : ℕ) (C : Bool) : String :=
  if 7500 ≤ avg ∧ F = 0 then "PROMOTED"
  else if 7500 ≤ avg ∧ F ≤ 2 ∧ C = false then "PASSED"
  else "FAILED"

/-- Count of determined subjects whose original final rating is below 75 —
the failing count the code actually uses (a null rating never reaches
it). -/
def countFailing (r : AcademicRecord) : ℕ :=
  (r.determinedGrades).countP
    (fun g => decide (g.final_rating.getD 0 < 7500))

/-- Whether some determined subject's original final rating is strictly
below 60. -/
def hasCriticalFailure (r : AcademicRecord) : Bool :=
  (r.determinedGrades).any (fun g => decide (g.final_rating.getD 0 < 6000))

/-- Claim C1's failing-subject count as stated: over ALL subject grades,
with a null rating treated as failing. -/
def countFailingWithNull (r : AcademicRecord) : ℕ :=
  r.subject_grades.countP (fun g =>
    match g.final_rating with
    | some f => decide (f < 7500)
    | none => true)

/-- Claim C1's critical check as stated: some subject's rating strictly
below 60 (a null rating is not strictly below 60). -/
def hasCriticalWithNull (r : AcademicRecord) : Bool :=
  r.subject_grades.any (fun g =>
    match g.final_rating with
    | some f => decide (f < 6000)
    | none => false)

/-- The grade-4-and-above classifier exactly as claim C1 words it: `F`
counts null ratings as failing. -/
def determine_remarks_claimC1 (r : AcademicRecord) : String :=
  if (r.determinedGrades).isEmpty then ""
  else
    match r.calculate_general_average with
    | none => ""
    | some avg =>
      juniorHighClassify avg (countFailingWithNull r)
        (hasCriticalWithNull r)

/-- The effective final rating as amended for claim C2: the recomputed
final grade when present AND nonzero, otherwise the final rating. -/
def effectiveRatingAmended (g : SubjectGrade) : Option ℕ :=
  match g.recomputed_final_grade with
  | some v => if v = 0 then g.final_rating else some v
  | none => g.final_rating

/-- The general average exactly as claim C2 words it: the effective value
of a subject is the recomputed final grade whenever it is present (even if
zero). -/
def general_average_claimC2 (r : AcademicRecord) : Option ℕ :=
  if (r.determinedGrades).isEmpty then none
  else
    some (rheDiv
      ((r.determinedGrades).map (fun g =>
        ((g.recomputed_final_grade.orElse
          (fun _ => g.final_rating)).getD 0))).sum
      (r.determinedGrades).length)

/-- Round-half-up ("standard rounding" read as: ties round up) of the
quotient `n / d`: the floor of `n / d + 1/2`. -/
def rhuDiv (n d : ℕ) : ℕ := (2 * n + d) / (2 * d)

/-- The final rating exactly as claim C3 words it, with "standard
rounding" read as round-half-up. -/
def calculate_final_rating_claimC3 (g : SubjectGrade) : Option ℕ :=
  if (g.validQuarters).isEmpty then none
  else some (rhuDiv (g.validQuarters).sum (g.validQuarters).length)

/-- The school-year transition exactly as claim C8 words it: increment
only when the label parses as two dashed 4-digit years, otherwise keep
it. -/
def nextSchoolYearLabel_claimC8 (s : String) : String :=
  match pySplitDash s.data with
  | [p, q] =>
    if p.length = 4 && p.all Char.isDigit
        && q.length = 4 && q.all Char.isDigit then
      match pyIntChars p, pyIntChars q with
      | some a, some b => toString (a + 1) ++ "-" ++ toString (b + 1)
      | _, _ => s
    else s
  | _ => s

/-! ### Concrete inputs used by counterexamples and witnesses -/

/-- A fresh subject grade carrying only a final rating. -/
def sgWithFinal (f : Option ℕ) : SubjectGrade :=
  { newSubjectGrade with final_rating := f }

/-- A record of the given grade level holding the given subject grades. -/
def recWith (grade : ℤ) (sgs : List SubjectGrade) : AcademicRecord :=
  { student := "123456789012", school := 1, grade_level := grade,
    sectionRef := none, school_year := "2024-2025",
    adviser_teacher := none, general_average := none, remarks := "",
    subject_grades := sgs }

/-- An empty record store. -/
def emptyDb : Database := { areas := [], records := [] }

/-- C1 counterexample input: a grade-7 record with one determined subject
(90.00) and one subject with no final rating yet. -/
def cexC1 : AcademicRecord :=
  recWith 7 [sgWithFinal (some 9000), sgWithFinal none]

/-- C2 counterexample input: one subject with final rating 80.00 and a
recomputed final grade that is present but zero. -/
def cexC2 : AcademicRecord :=
  recWith 7 [{ newSubjectGrade with
               final_rating := some 8000,
               recomputed_final_grade := some 0 }]

/-- C3 counterexample input: quarters 60.00 and 60.01, whose mean 60.005
is a rounding tie. -/
def cexC3 : SubjectGrade :=
  { newSubjectGrade with quarter_1 := some 6000, quarter_2 := some 6001 }

/-- C4 counterexample input: final rating 80.00 and a supplied remedial
mark of exactly 0. -/
def cexC4 : SubjectGrade :=
  { newSubjectGrade with quarter_1 := some 8000, remedial_mark := some 0 }

/-- C5 counterexample input: a single quarter score of exactly 0, so the
computed final rating is 0.00. -/
def cexC5 : SubjectGrade :=
  { newSubjectGrade with quarter_1 := some 0 }

/-- C8 counterexample input: a grade-7 record whose school-year label has
two-digit year components. -/
def cexC8 : AcademicRecord :=
  { recWith 7 [] with school_year := "24-25" }

/-- C9 counterexample input: final rating 80.00 with a remedial mark of
70.00 supplied and both remedial dates missing. -/
def cexC9 : SubjectGrade :=
  { newSubjectGrade with
    quarter_1 := some 8000,
    remedial_mark := some 7000 }

/-- C1 witness input: spec scenario C, a grade-9 record with subjects
rated 90.00 / 92.00 / 88.00. -/
def wC1 : AcademicRecord :=
  recWith 9 [sgWithFinal (some 9000), sgWithFinal (some 9200),
    sgWithFinal (some 8800)]

/-- C2 witness input: a grade-9 record with one subject rated 57.50 and
remedially recomputed to 68.75 and one subject rated 80.00. -/
def wC2 : AcademicRecord :=
  recWith 9 [{ newSubjectGrade with
               final_rating := some 5750,
               recomputed_final_grade := some 6875 },
    sgWithFinal (some 8000)]

/-- C3 witness input: spec scenario A, quarters 80 / 70 / 90 / 100. -/
def wC3 : SubjectGrade :=
  { newSubjectGrade with
    quarter_1 := some 8000, quarter_2 := some 7000,
    quarter_3 := some 9000, quarter_4 := some 10000 }

/-- C4 witness input: spec scenario B, quarters 60 / 55 (final rating
57.50) with remedial mark 80.00 and a complete remedial date range. -/
def wC4 : SubjectGrade :=
  { newSubjectGrade with
    quarter_1 := some 6000, quarter_2 := some 5500,
    remedial_mark := some 8000, remedial_conducted_from := some 20250301,
    remedial_conducted_to := some 20250430 }

/-- C5 witness input: quarters 60 / 55, final rating 57.50, no remedial
data. -/
def wC5 : SubjectGrade :=
  { newSubjectGrade with
    quarter_1 := some 6000, quarter_2 := some 5500 }

/-- C6 witness input: a record manually marked PROMOTED whose only
subject is failing. -/
def wC6 : AcademicRecord :=
  { recWith 7 [sgWithFinal (some 5000)] with remarks := "PROMOTED" }

/-- C7/C8 witness input: a grade-9 record for school year 2024-2025. -/
def wC7 : AcademicRecord := recWith 9 []

/-- C9 witness input: a failing subject (57.50) with a remedial mark
supplied and no remedial dates. -/
def wC9 : SubjectGrade :=
  { newSubjectGrade with
    quarter_1 := some 6000, quarter_2 := some 5500,
    remedial_mark := some 8000 }

/-- C10 witness input, the remediated subject: original rating 70.00,
recomputed final grade 80.00. -/
def wC10sg : SubjectGrade :=
  { newSubjectGrade with
    final_rating := some 7000,
    recomputed_final_grade := some 8000 }

/-- C10 witness input: a grade-9 record with `wC10sg` and one subject at
80.00. -/
def wC10 : AcademicRecord :=
  recWith 9 [wC10sg, sgWithFinal (some 8000)]

/-- The stored row produced by saving `wC4` (final rating 57.50, flagged,
remarks Failed, blended grade 68.75). -/
def wC4saved : SubjectGrade :=
  { wC4 with
    final_rating := some 5750, needs_remedial := true,
    remarks := "Failed", recomputed_final_grade := some 6875 }

/-- The stored row produced by saving `wC5` (final rating 57.50, flagged,
remarks Failed). -/
def wC5saved : SubjectGrade :=
  { wC5 with
    final_rating := some 5750, needs_remedial := true,
    remarks := "Failed" }

/-- The record created by promoting `wC7` against an empty store. -/
def wC7next : AcademicRecord :=
  { student := "123456789012", school := 1, grade_level := 10,
    sectionRef := none, school_year := "2025-2026",
    adviser_teacher := none, general_average := none, remarks := "",
    subject_grades := [] }

/-! ### Supporting lemmas -/

/-- Banker's rounding never undershoots the truncated quotient. -/
theorem div_le_rheDiv (n d : ℕ) : n / d ≤ rheDiv n d := by
  unfold rheDiv
  split
  · exact Nat.le_refl _
  · split
    · exact Nat.le_succ _
    · split
      · exact Nat.le_refl _
      · exact Nat.le_succ _

/-- `clean` never modifies the fields other than
`recomputed_final_grade`. -/
theorem clean_ok_fields (g g' : SubjectGrade)
    (h : g.clean = Except.ok g') :
    g'.final_rating = g.final_rating ∧
    g'.needs_remedial = g.needs_remedial ∧
    g'.remedial_mark = g.remedial_mark ∧
    g'.quarter_1 = g.quarter_1 ∧ g'.quarter_2 = g.quarter_2 ∧
    g'.quarter_3 = g.quarter_3 ∧ g'.quarter_4 = g.quarter_4 := by
  unfold SubjectGrade.clean at h
  split at h
  · exact absurd h (by simp)
  · split at h
    · cases h
      simp
    · cases h
      simp

/-- The remarks step touches only `remarks`. -/
theorem remarksStep_fields (g : SubjectGrade) :
    (g.remarksStep).final_rating = g.final_rating ∧
    (g.remarksStep).needs_remedial = g.needs_remedial ∧
    (g.remarksStep).remedial_mark = g.remedial_mark ∧
    (g.remarksStep).recomputed_final_grade = g.recomputed_final_grade ∧
    (g.remarksStep).remedial_conducted_from = g.remedial_conducted_from ∧
    (g.remarksStep).remedial_conducted_to = g.remedial_conducted_to := by
  unfold SubjectGrade.remarksStep
  split
  · split <;> simp
  · simp

/-- The remedial-flag step touches only `needs_remedial`. -/
theorem remedialFlagStep_fields (g : SubjectGrade) :
    (g.remedialFlagStep).final_rating = g.final_rating ∧
    (g.remedialFlagStep).remarks = g.remarks ∧
    (g.remedialFlagStep).remedial_mark = g.remedial_mark ∧
    (g.remedialFlagStep).recomputed_final_grade
      = g.recomputed_final_grade ∧
    (g.remedialFlagStep).remedial_conducted_from
      = g.remedial_conducted_from ∧
    (g.remedialFlagStep).remedial_conducted_to
      = g.remedial_conducted_to := by
  unfold SubjectGrade.remedialFlagStep
  split
  · simp
  · split <;> simp

/-- The state handed to `clean` by `save` (the same state
`update_final_rating` persists): the recomputed rating, with the remedial
inputs untouched. -/
theorem pre_clean_fields (g : SubjectGrade) :
    (g.update_final_rating).final_rating = g.calculate_final_rating ∧
    (g.update_final_rating).remedial_mark = g.remedial_mark ∧
    (g.update_final_rating).recomputed_final_grade
      = g.recomputed_final_grade ∧
    (g.update_final_rating).remedial_conducted_from
      = g.remedial_conducted_from ∧
    (g.update_final_rating).remedial_conducted_to
      = g.remedial_conducted_to := by
  unfold SubjectGrade.update_final_rating
  have h1 := remarksStep_fields
    (SubjectGrade.remedialFlagStep (SubjectGrade.recomputeRatingStep g))
  have h2 := remedialFlagStep_fields (SubjectGrade.recomputeRatingStep g)
  refine ⟨?_, ?_, ?_, ?_, ?_⟩
  · rw [h1.1, h2.1]
    rfl
  · rw [h1.2.2.1, h2.2.2.1]
    rfl
  · rw [h1.2.2.2.1, h2.2.2.2.1]
    rfl
  · rw [h1.2.2.2.2.1, h2.2.2.2.2.1]
    rfl
  · rw [h1.2.2.2.2.2, h2.2.2.2.2.2]
    rfl

/-- `save` is `clean` applied to the state `update_final_rating`
computes. -/
theorem save_eq_clean_update (g : SubjectGrade) :
    g.save = (g.update_final_rating).clean := rfl

/-- Two `Bool` predicates agreeing on a list give the same `any`. -/
theorem any_congr_of_mem {α : Type} {l : List α} {p q : α → Bool}
    (h : ∀ a ∈ l, p a = q a) : l.any p = l.any q := by
  induction l with
  | nil => rfl
  | cons a t ih =>
    simp only [List.any_cons]
    rw [h a (List.mem_cons_self a t),
      ih (fun b hb => h b (List.mem_cons_of_mem a hb))]

/-- On determined grades, the classifier's failing predicate is the
plain original-rating comparison — its null branch is dead. -/
theorem countP_failing_eq (r : AcademicRecord) :
    (r.determinedGrades).countP AcademicRecord.isFailingOriginal
      = countFailing r := by
  unfold countFailing
  apply List.countP_congr
  intro g hg
  have hs : g.final_rating.isSome = true := by
    simpa using (List.mem_filter.mp hg).2
  cases hfr : g.final_rating with
  | none => rw [hfr] at hs; simp at hs
  | some f => simp [AcademicRecord.isFailingOriginal, hfr]

/-- On determined grades, the classifier's critical predicate is the
plain original-rating comparison — its null branch is dead. -/
theorem any_critical_eq (r : AcademicRecord) :
    (r.determinedGrades).any AcademicRecord.isCriticalOriginal
      = hasCriticalFailure r := by
  unfold hasCriticalFailure
  apply any_congr_of_mem
  intro g hg
  have hs : g.final_rating.isSome = true := by
    simpa using (List.mem_filter.mp hg).2
  cases hfr : g.final_rating with
  | none => rw [hfr] at hs; simp at hs
  | some f => simp [AcademicRecord.isCriticalOriginal, hfr]

/-- Closed form of the general average on a record with at least one
determined subject. -/
theorem calculate_general_average_of_ne_nil (r : AcademicRecord)
    (h : r.determinedGrades ≠ []) :
    r.calculate_general_average
      = some (rheDiv
          ((r.determinedGrades).map
            (fun g => g.get_final_rating.getD 0)).sum
          (r.determinedGrades).length) := by
  have h1 : ¬ ((r.determinedGrades).isEmpty = true) := by
    simp [List.isEmpty_iff, h]
  have h2 : ¬ ((r.determinedGrades).length = 0) := by
    simpa [List.length_eq_zero] using h
  unfold AcademicRecord.calculate_general_average
  rw [if_neg h1, if_neg h2]

/-- The general average is undetermined exactly when no subject grade has
a determined final rating. -/
theorem calculate_general_average_eq_none_iff (r : AcademicRecord) :
    r.calculate_general_average = none ↔ r.determinedGrades = [] := by
  constructor
  · intro h
    by_contra hne
    rw [calculate_general_average_of_ne_nil r hne] at h
    simp at h
  · intro h
    have h0 : (r.determinedGrades).isEmpty = true := by simp [h]
    unfold AcademicRecord.calculate_general_average
    rw [if_pos h0]

/-- The aggregator's effective rating coincides with the amended claim-C2
effective rating (recomputed when present and nonzero). -/
theorem get_final_rating_eq_effectiveAmended (g : SubjectGrade) :
    g.get_final_rating = effectiveRatingAmended g := by
  unfold SubjectGrade.get_final_rating effectiveRatingAmended qTruthy
  cases hr : g.recomputed_final_grade with
  | none => simp
  | some v =>
    by_cases hv : v = 0 <;> simp [hv]

/-- `rheDiv` is round-half-even of the exact rational quotient: the
integer-arithmetic rounding used throughout the embedding agrees with the
mathematical banker's rounding `rhe` that models Python's `round`. -/
theorem rheDiv_eq_rhe (n d : ℕ) (hd : 0 < d) :
    (rheDiv n d : ℤ) = rhe ((n : ℚ) / (d : ℚ)) := by
  have hd0 : (0:ℚ) < (d:ℚ) := by exact_mod_cast hd
  have hfloor : ⌊(n : ℚ) / (d : ℚ)⌋ = ((n / d : ℕ) : ℤ) := by
    exact_mod_cast Rat.floor_natCast_div_natCast n d
  have hkey : ((n % d : ℕ) : ℚ) / (d:ℚ) + ((n / d : ℕ) : ℚ)
      = (n:ℚ)/(d:ℚ) := by
    field_simp
    exact_mod_cast Nat.mod_add_div' n d
  have hfrac : (n : ℚ)/(d:ℚ) - (((n / d : ℕ) : ℤ) : ℚ)
      = ((n % d : ℕ) : ℚ)/(d:ℚ) := by
    rw [Int.cast_natCast]
    linarith [hkey]
  have h1 : (((n % d : ℕ):ℚ)/(d:ℚ) < 1/2) ↔ 2 * (n % d) < d := by
    rw [div_lt_div_iff₀ hd0 (by norm_num : (0:ℚ) < 2), one_mul, mul_comm]
    norm_cast
  have h2 : ((1:ℚ)/2 < ((n % d : ℕ):ℚ)/(d:ℚ)) ↔ d < 2 * (n % d) := by
    rw [div_lt_div_iff₀ (by norm_num : (0:ℚ) < 2) hd0, one_mul,
      mul_comm (((n % d : ℕ)):ℚ) 2]
    norm_cast
  have h3 : (((n / d : ℕ) : ℤ) % 2 = 0) ↔ ((n / d) % 2 = 0) := by omega
  unfold rhe rheDiv
  rw [hfloor, hfrac]
  by_cases hc1 : 2 * (n % d) < d
  · rw [if_pos hc1, if_pos (h1.mpr hc1)]
  · rw [if_neg hc1, if_neg (fun hq => hc1 (h1.mp hq))]
    by_cases hc2 : d < 2 * (n % d)
    · rw [if_pos hc2, if_pos (h2.mpr hc2)]
      push_cast
      ring
    · rw [if_neg hc2, if_neg (fun hq => hc2 (h2.mp hq))]
      by_cases hc3 : (n / d) % 2 = 0
      · rw [if_pos hc3, if_pos (h3.mpr hc3)]
      · rw [if_neg hc3, if_neg (fun hq => hc3 (h3.mp hq))]
        push_cast
        ring

/-! ### Counterexamples to claims as stated -/

/-- C1 counterexample: on a grade-7 record with one determined subject at
90.00 and one subject with a null rating, the code classifies PROMOTED
(the null subject is filtered out before `F` is counted), while the claim
as stated (null rating treated as failing, so `F = 1`) yields PASSED. -/
theorem c1_counterexample :
    4 ≤ cexC1.grade_level ∧
    cexC1.determine_remarks = "PROMOTED" ∧
    determine_remarks_claimC1 cexC1 = "PASSED" := by decide

/-- C2 counterexample: a subject with final rating 80.00 and a present but
zero recomputed final grade.  The code's truthiness test skips the zero
recomputed grade, giving general average 80.00; the claim as stated
("the recomputed final grade when present") gives 0. -/
theorem c2_counterexample :
    (cexC2.subject_grades.map (fun g => g.recomputed_final_grade))
      = [some 0] ∧
    cexC2.calculate_general_average = some 8000 ∧
    general_average_claimC2 cexC2 = some 0 := by decide

/-- C3 counterexample: quarters 60.00 and 60.01 average to the tie 60.005;
Python's `round` (half-even) stores 60.00, while "standard rounding" read
as round-half-up would store 60.01. -/
theorem c3_counterexample :
    cexC3.calculate_final_rating = some 6000 ∧
    calculate_final_rating_claimC3 cexC3 = some 6001 := by decide

/-- C4 counterexample: final rating 80.00 with supplied remedial mark 0.
The claim as stated demands a recomputed final grade of
round((80 + 0)/2, 2) = 40.00, but the truthiness guard
`if self.remedial_mark and self.final_rating:` skips a zero mark and the
save leaves the recomputed final grade null. -/
theorem c4_counterexample :
    cexC4.remedial_mark = some 0 ∧
    cexC4.calculate_final_rating = some 8000 ∧
    (cexC4.save.toOption.map (fun g => g.recomputed_final_grade))
      = some none := by decide

/-- C5 counterexample: a single quarter score of 0 gives computed final
rating 0.00, which is below 75, yet the save leaves `needs_remedial`
false: the guard `if self.final_rating and self.final_rating < 75:` is
falsy at `Decimal("0.00")`. -/
theorem c5_counterexample :
    cexC5.needs_remedial = false ∧
    (cexC5.save.toOption.map
      (fun g => (g.final_rating, g.needs_remedial)))
      = some (some 0, false) := by decide

/-- C8 counterexample: the label "24-25" does not parse as two dashed
4-digit years, so the claim as stated keeps it unchanged — but the code
parses any pair of integers and promotes to school year "25-26". -/
theorem c8_counterexample :
    cexC8.school_year = "24-25" ∧
    ((promote cexC8 emptyDb).1.map (fun next => next.school_year))
      = some "25-26" ∧
    nextSchoolYearLabel_claimC8 "24-25" = "24-25" := by decide

/-- C9 counterexample: final rating 80.00, remedial mark 70.00 supplied,
both remedial dates missing.  The claim as stated demands a rejection, but
the validation is only reached when `needs_remedial` is set — which the
save just cleared (80.00 ≥ 75) — so the save succeeds and even stores the
blended grade 75.00. -/
theorem c9_counterexample :
    cexC9.remedial_mark = some 7000 ∧
    cexC9.remedial_conducted_from = none ∧
    cexC9.remedial_conducted_to = none ∧
    (cexC9.save.toOption.map (fun g => g.recomputed_final_grade))
      = some (some 7500) := by decide

/-! ### Claim theorems -/

/-- C6: for every academic record whose remarks are PROMOTED or RETAINED,
`update_computed_fields` (the automatic recomputation triggered by any
subject-grade change) leaves the remarks unchanged, while still
refreshing the general average. -/
theorem update_computed_fields_preserves_manual_remarks
    (r : AcademicRecord)
    (h : r.remarks = "PROMOTED" ∨ r.remarks = "RETAINED") :
    (r.update_computed_fields).remarks = r.remarks ∧
    (r.update_computed_fields).general_average
      = r.calculate_general_average := by
  unfold AcademicRecord.update_computed_fields
  rw [if_pos h]
  exact ⟨rfl, rfl⟩

/-- C6 witness: a record manually marked PROMOTED whose only subject is
failing keeps its PROMOTED remarks through recomputation. -/
theorem update_computed_fields_preserves_manual_remarks_witness :
    (wC6.remarks = "PROMOTED" ∨ wC6.remarks = "RETAINED") ∧
    ((wC6.update_computed_fields).remarks = wC6.remarks ∧
      (wC6.update_computed_fields).general_average
        = wC6.calculate_general_average) :=
  ⟨Or.inl (by decide),
    update_computed_fields_preserves_manual_remarks wC6
      (Or.inl (by decide))⟩

/-- C7: for every record at grade level below 10, invoking `promote` a
second time on the store produced by the first invocation returns the same
record and the same store: the record created (or found) by the first
invocation is found, and no duplicate is created. -/
theorem promote_idempotent (r : AcademicRecord) (db : Database)
    (h : r.grade_level < 10) :
    promote r (promote r db).2 = promote r db := by
  have h10 : ¬ (10 ≤ r.grade_level) := not_le.mpr h
  cases hf : db.records.find?
      (matchesKey r.student (r.grade_level + 1)
        (nextSchoolYearLabel r.school_year)) with
  | some e =>
    simp [promote, h10, hf]
  | none =>
    have hkey : matchesKey r.student (r.grade_level + 1)
        (nextSchoolYearLabel r.school_year)
        (createAcademicRecord db r.student r.school (r.grade_level + 1)
          none (nextSchoolYearLabel r.school_year) none).1 = true := by
      simp [matchesKey, createAcademicRecord]
    simp [promote, h10, hf, createAcademicRecord, List.find?_append,
      List.find?_cons, matchesKey]

/-- C7 witness: promoting a grade-9 record twice against an empty store
returns the same record and store. -/
theorem promote_idempotent_witness :
    wC7.grade_level < 10 ∧
    promote wC7 (promote wC7 emptyDb).2 = promote wC7 emptyDb :=
  ⟨by decide, promote_idempotent wC7 emptyDb (by decide)⟩

/-- C1 (amended): for a record at grade level 4 or above, the classifier
returns empty remarks when no subject has a determined final rating, and
otherwise classifies by PROMOTED / PASSED / FAILED exactly as the claim
states — except that `F` counts only subjects with a determined rating
below 75: subjects with a null rating are excluded from the classification
entirely rather than being treated as failing. -/
theorem determine_remarks_junior_high (r : AcademicRecord)
    (h4 : 4 ≤ r.grade_level) :
    (r.determinedGrades = [] → r.determine_remarks = "") ∧
    (∀ avg, r.calculate_general_average = some avg →
      r.determine_remarks
        = juniorHighClassify avg (countFailing r) (hasCriticalFailure r)) := by
  constructor
  · intro h
    have h0 : (r.determinedGrades).isEmpty = true := by simp [h]
    unfold AcademicRecord.determine_remarks
    rw [if_pos h0]
  · intro avg havg
    have hne : r.determinedGrades ≠ [] := by
      intro h0
      rw [(calculate_general_average_eq_none_iff r).mpr h0] at havg
      cases havg
    have hempty : ¬ ((r.determinedGrades).isEmpty = true) := by
      simp [List.isEmpty_iff, hne]
    have h3 : ¬ (r.grade_level ≤ 3) := by omega
    unfold AcademicRecord.determine_remarks
    rw [if_neg hempty, havg]
    simp only [if_neg h3, countP_failing_eq, any_critical_eq,
      juniorHighClassify, Bool.and_eq_true, decide_eq_true_eq,
      Bool.not_eq_true']
    split_ifs <;> first | rfl | tauto

/-- C1 witness: spec scenario C — a grade-9 record rated
90.00 / 92.00 / 88.00 classifies through the junior-high rule with
average 90.00, no failing subject and no critical failure. -/
theorem determine_remarks_junior_high_witness :
    4 ≤ wC1.grade_level ∧
    wC1.determine_remarks
      = juniorHighClassify 9000 (countFailing wC1) (hasCriticalFailure wC1) :=
  ⟨by decide,
    (determine_remarks_junior_high wC1 (by decide)).2 9000 (by decide)⟩

/-- C2: the general average is undetermined exactly when every subject
grade's final rating is null, and otherwise equals the mean — rounded to 2
decimal places with Python's banker's rounding — of the effective final
rating of the determined subjects, where (amended) the effective rating
is the recomputed final grade only when it is present AND nonzero
(`if self.recomputed_final_grade:` is a truthiness test). -/
theorem general_average_spec (r : AcademicRecord) :
    (r.calculate_general_average = none ↔
      ∀ g ∈ r.subject_grades, g.final_rating = none) ∧
    (r.determinedGrades ≠ [] →
      r.calculate_general_average
        = some (rheDiv
            ((r.determinedGrades).map
              (fun g => (effectiveRatingAmended g).getD 0)).sum
            (r.determinedGrades).length)) := by
  constructor
  · rw [calculate_general_average_eq_none_iff]
    unfold AcademicRecord.determinedGrades
    rw [List.filter_eq_nil_iff]
    constructor
    · intro h g hg
      have := h g hg
      simpa using this
    · intro h g hg
      simp [h g hg]
  · intro hne
    rw [calculate_general_average_of_ne_nil r hne]
    have hfun : (fun (g : SubjectGrade) => g.get_final_rating.getD 0)
        = fun g => (effectiveRatingAmended g).getD 0 := by
      funext g
      rw [get_final_rating_eq_effectiveAmended]
    rw [hfun]

/-- C2 witness: a record with subjects 57.50 (recomputed 68.75) and 80.00
averages round((68.75 + 80.00)/2, 2) = 74.38 over the effective
ratings. -/
theorem general_average_spec_witness :
    wC2.determinedGrades ≠ [] ∧
    wC2.calculate_general_average
      = some (rheDiv
          ((wC2.determinedGrades).map
            (fun g => (effectiveRatingAmended g).getD 0)).sum
          (wC2.determinedGrades).length) :=
  ⟨by decide, (general_average_spec wC2).2 (by decide)⟩

/-- C3: for quarter scores in [0, 100], the computed final rating is
undetermined exactly when all four quarters are null, and otherwise is
the arithmetic mean of the non-null quarters rounded to 2 decimal places
— amended: with Python's round-half-even, not round-half-up — and
`final_rating` is recomputed from the quarters by every successful
save. -/
theorem final_rating_spec (g : SubjectGrade)
    (_hrange : ∀ q ∈ g.validQuarters, q ≤ 10000) :
    (g.calculate_final_rating = none ↔
      (g.quarter_1 = none ∧ g.quarter_2 = none ∧
        g.quarter_3 = none ∧ g.quarter_4 = none)) ∧
    (g.validQuarters ≠ [] →
      g.calculate_final_rating
        = some (rheDiv (g.validQuarters).sum (g.validQuarters).length)) ∧
    (∀ g', g.save = Except.ok g' →
      g'.final_rating = g.calculate_final_rating) := by
  refine ⟨?_, ?_, ?_⟩
  · constructor
    · intro h
      unfold SubjectGrade.calculate_final_rating at h
      split at h
      · next hempty =>
        have hv : g.validQuarters = [] := by simpa using hempty
        unfold SubjectGrade.validQuarters at hv
        rw [List.filterMap_eq_nil_iff] at hv
        exact ⟨hv _ (by simp), hv _ (by simp), hv _ (by simp),
          hv _ (by simp)⟩
      · cases h
    · intro h
      have hv : g.validQuarters = [] := by
        unfold SubjectGrade.validQuarters
        rw [h.1, h.2.1, h.2.2.1, h.2.2.2]
        rfl
      simp [SubjectGrade.calculate_final_rating, hv]
  · intro hne
    unfold SubjectGrade.calculate_final_rating
    rw [if_neg (by simpa [List.isEmpty_iff] using hne)]
  · intro g' hok
    rw [save_eq_clean_update] at hok
    rw [(clean_ok_fields _ _ hok).1, (pre_clean_fields g).1]

/-- C3 witness: spec scenario A — quarters 80 / 70 / 90 / 100 give final
rating 85.00 as banker's rounding of the mean. -/
theorem final_rating_spec_witness :
    (∀ q ∈ wC3.validQuarters, q ≤ 10000) ∧
    wC3.calculate_final_rating
      = some (rheDiv (wC3.validQuarters).sum (wC3.validQuarters).length) :=
  ⟨by decide, (final_rating_spec wC3 (by decide)).2.1 (by decide)⟩

/-- C10: the classifier's failing count is evaluated on the original
final rating, not on the effective rating: a determined subject with
original rating below 75 makes the failing count positive even when its
recomputed final grade is 75 or above, while the very same subject
contributes its recomputed grade (not its original rating) to the general
average used in the same classification. -/
theorem classifier_failing_uses_original_rating (r : AcademicRecord)
    (g0 : SubjectGrade) (f0 r0 : ℕ)
    (hmem : g0 ∈ r.determinedGrades)
    (hf : g0.final_rating = some f0) (hlt : f0 < 7500)
    (hrec : g0.recomputed_final_grade = some r0) (hge : 7500 ≤ r0) :
    0 < (r.determinedGrades).countP AcademicRecord.isFailingOriginal ∧
    g0.get_final_rating = some r0 ∧
    g0.get_final_rating ≠ g0.final_rating := by
  have hq : qTruthy g0.recomputed_final_grade = true := by
    rw [hrec]
    simp [qTruthy]
    omega
  have hget : g0.get_final_rating = some r0 := by
    unfold SubjectGrade.get_final_rating
    rw [if_pos hq, hrec]
  refine ⟨?_, hget, ?_⟩
  · rw [List.countP_pos_iff]
    exact ⟨g0, hmem, by simp [AcademicRecord.isFailingOriginal, hf, hlt]⟩
  · rw [hget, hf]
    intro hcontra
    have : r0 = f0 := by simpa using hcontra
    omega

/-- C4 (amended): for a subject grade whose computed final rating `f` and
supplied remedial mark `m` are both nonzero (at least 0.01), a successful
save stores a recomputed final grade of round((f + m)/2, 2), leaves the
final rating itself at `f`, and that blended grade becomes the effective
final rating used downstream. -/
theorem save_blends_remedial (g g' : SubjectGrade) (f m : ℕ)
    (hf : g.calculate_final_rating = some f) (hf1 : 1 ≤ f)
    (hm : g.remedial_mark = some m) (hm1 : 1 ≤ m)
    (hok : g.save = Except.ok g') :
    g'.recomputed_final_grade = some (rheDiv (f + m) 2) ∧
    g'.final_rating = some f ∧
    g'.get_final_rating = some (rheDiv (f + m) 2) := by
  have hpre := pre_clean_fields g
  have hfS : (g.update_final_rating).final_rating = some f := by
    rw [hpre.1, hf]
  have hmS : (g.update_final_rating).remedial_mark = some m := by
    rw [hpre.2.1, hm]
  have hqf : qTruthy (g.update_final_rating).final_rating = true := by
    rw [hfS]
    simp [qTruthy]
    omega
  have hqm : qTruthy (g.update_final_rating).remedial_mark = true := by
    rw [hmS]
    simp [qTruthy]
    omega
  rw [save_eq_clean_update] at hok
  unfold SubjectGrade.clean at hok
  split at hok
  · simp at hok
  · split at hok
    · next hcond =>
      have hg' : g' = { g.update_final_rating with
          recomputed_final_grade :=
            some (rheDiv ((g.update_final_rating).final_rating.getD 0
              + (g.update_final_rating).remedial_mark.getD 0) 2) } := by
        exact (Except.ok.inj hok).symm
      have hval : (g.update_final_rating).final_rating.getD 0
          + (g.update_final_rating).remedial_mark.getD 0 = f + m := by
        rw [hfS, hmS]
        rfl
      have hblend : 1 ≤ rheDiv (f + m) 2 := by
        have h2 : 1 ≤ (f + m) / 2 := by
          rw [Nat.le_div_iff_mul_le (by norm_num)]
          omega
        exact le_trans h2 (div_le_rheDiv (f + m) 2)
      refine ⟨?_, ?_, ?_⟩
      · rw [hg']
        simp [hval]
      · rw [hg']
        simpa using hfS
      · rw [hg']
        unfold SubjectGrade.get_final_rating
        simp only [hval]
        rw [if_pos]
        · simp [qTruthy]
          omega
    · next hcond =>
      exact absurd (by rw [hqm, hqf]; rfl : (qTruthy
        (g.update_final_rating).remedial_mark
          && qTruthy (g.update_final_rating).final_rating) = true) hcond

/-- C4 witness: spec scenario B — final rating 57.50, remedial mark 80.00
with a complete date range; the save stores blended grade 68.75 while the
final rating stays 57.50. -/
theorem save_blends_remedial_witness :
    wC4.save = Except.ok wC4saved ∧
    (wC4saved.recomputed_final_grade = some (rheDiv (5750 + 8000) 2) ∧
      wC4saved.final_rating = some 5750 ∧
      wC4saved.get_final_rating = some (rheDiv (5750 + 8000) 2)) :=
  ⟨rfl,
    save_blends_remedial wC4 wC4saved 5750 8000 (by decide) (by decide)
      (by decide) (by decide) rfl⟩

/-- C5 (amended): after a successful save, the `needs_remedial` flag is
set when the computed final rating is truthy (non-null and nonzero) and
below 75; it is cleared when the rating is truthy, at least 75 and the
stored recomputed final grade is not truthy; in every other case —
including a rating of exactly 0.00, a null rating, or a truthy recomputed
grade protecting the flag — it is left unchanged. -/
theorem save_remedial_flag (g g' : SubjectGrade)
    (hok : g.save = Except.ok g') :
    (qTruthy g.calculate_final_rating = true →
      g.calculate_final_rating.getD 0 < 7500 →
      g'.needs_remedial = true) ∧
    (qTruthy g.calculate_final_rating = true →
      7500 ≤ g.calculate_final_rating.getD 0 →
      qTruthy g.recomputed_final_grade = false →
      g'.needs_remedial = false) ∧
    (qTruthy g.calculate_final_rating = true →
      7500 ≤ g.calculate_final_rating.getD 0 →
      qTruthy g.recomputed_final_grade = true →
      g'.needs_remedial = g.needs_remedial) ∧
    (qTruthy g.calculate_final_rating = false →
      g'.needs_remedial = g.needs_remedial) := by
  rw [save_eq_clean_update] at hok
  have hflag : g'.needs_remedial
      = (SubjectGrade.remedialFlagStep
          (SubjectGrade.recomputeRatingStep g)).needs_remedial := by
    rw [(clean_ok_fields _ _ hok).2.1]
    exact (remarksStep_fields _).2.1
  have hfin : (SubjectGrade.recomputeRatingStep g).final_rating
      = g.calculate_final_rating := rfl
  have hrec : (SubjectGrade.recomputeRatingStep g).recomputed_final_grade
      = g.recomputed_final_grade := rfl
  have hneeds : (SubjectGrade.recomputeRatingStep g).needs_remedial
      = g.needs_remedial := rfl
  refine ⟨?_, ?_, ?_, ?_⟩
  · intro h1 h2
    rw [hflag]
    unfold SubjectGrade.remedialFlagStep
    rw [if_pos (by rw [hfin]; simp [h1, h2])]
  · intro h1 h2 h3
    rw [hflag]
    unfold SubjectGrade.remedialFlagStep
    rw [if_neg (by rw [hfin]; simp [h2]),
      if_pos (by rw [hfin, hrec]; simp [h1, h2, h3])]
  · intro h1 h2 h3
    rw [hflag]
    unfold SubjectGrade.remedialFlagStep
    rw [if_neg (by rw [hfin]; simp [h2]),
      if_neg (by rw [hfin, hrec]; simp [h3]), hneeds]
  · intro h1
    rw [hflag]
    unfold SubjectGrade.remedialFlagStep
    rw [if_neg (by rw [hfin]; simp [h1]),
      if_neg (by rw [hfin]; simp [h1]), hneeds]

/-- C5 witness: quarters 60 / 55 give final rating 57.50, and the save
sets `needs_remedial`. -/
theorem save_remedial_flag_witness :
    wC5.save = Except.ok wC5saved ∧
    qTruthy wC5.calculate_final_rating = true ∧
    wC5.calculate_final_rating.getD 0 < 7500 ∧
    wC5saved.needs_remedial = true :=
  ⟨rfl, by decide, by decide,
    (save_remedial_flag wC5 wC5saved rfl).1 (by decide) (by decide)⟩

/-- C9 (amended): a save is rejected (raises `ValidationError` before
anything is persisted, leaving the stored row unchanged) exactly when,
after the automatic rating/flag recomputation, the subject is still
flagged `needs_remedial`, the supplied remedial mark is truthy (non-null
and nonzero), and the remedial date range is incomplete.  In particular a
remedial mark on a subject whose recomputed rating is 75 or above (which
clears the flag) is NOT rejected. -/
theorem save_rejects_iff (g : SubjectGrade) :
    (∃ e, g.save = Except.error e) ↔
      ((g.update_final_rating).needs_remedial = true ∧
        qTruthy g.remedial_mark = true ∧
        ¬ (g.remedial_conducted_from.isSome = true ∧
            g.remedial_conducted_to.isSome = true)) := by
  have hpre := pre_clean_fields g
  rw [save_eq_clean_update]
  unfold SubjectGrade.clean
  by_cases hC : ((g.update_final_rating).needs_remedial
      && qTruthy (g.update_final_rating).remedial_mark
      && !((g.update_final_rating).remedial_conducted_from.isSome
            && (g.update_final_rating).remedial_conducted_to.isSome))
      = true
  · rw [if_pos hC]
    rw [hpre.2.1, hpre.2.2.2.1, hpre.2.2.2.2] at hC
    simp only [Bool.and_eq_true, Bool.not_eq_true',
      Bool.and_eq_false_iff] at hC
    constructor
    · intro _
      refine ⟨hC.1.1, hC.1.2, ?_⟩
      intro hd
      rcases hC.2 with h | h
      · rw [hd.1] at h
        cases h
      · rw [hd.2] at h
        cases h
    · intro _
      exact ⟨_, rfl⟩
  · rw [if_neg hC]
    constructor
    · intro hex
      rcases hex with ⟨e, he⟩
      split at he <;> simp at he
    · intro hR
      exfalso
      apply hC
      rw [hpre.2.1, hpre.2.2.2.1, hpre.2.2.2.2]
      have hd : ((g.remedial_conducted_from.isSome
          && g.remedial_conducted_to.isSome)) = false := by
        rcases Bool.eq_false_or_eq_true
            (g.remedial_conducted_from.isSome
              && g.remedial_conducted_to.isSome) with h | h
        · exact absurd (by simpa [Bool.and_eq_true] using h) hR.2.2
        · exact h
      rw [hR.1, hR.2.1, hd]
      rfl

/-- C9 witness: a failing subject (57.50) with a remedial mark supplied
and no remedial dates is rejected by the save. -/
theorem save_rejects_iff_witness :
    ∃ e, wC9.save = Except.error e :=
  (save_rejects_iff wC9).mpr ⟨by decide, by decide, by decide⟩

/-- C8 (amended): promotion of a record below grade 10 creates (in the
no-existing-record case) a record for the same student at the next grade
level with section and adviser unassigned; the next school-year label
increments both components whenever the current label splits on "-" into
exactly two parts that each parse as a (not necessarily 4-digit) integer
literal, and is kept unchanged otherwise; grade-10 records produce no
next record; and saving a grade-10 record with remarks PROMOTED makes the
student GRADUATED. -/
theorem promote_transition_spec :
    (∀ r db, 10 ≤ r.grade_level → promote r db = (none, db)) ∧
    (∀ r db, r.grade_level < 10 →
      db.records.find? (matchesKey r.student (r.grade_level + 1)
        (nextSchoolYearLabel r.school_year)) = none →
      ∀ next, (promote r db).1 = some next →
        next.student = r.student ∧
        next.grade_level = r.grade_level + 1 ∧
        next.school_year = nextSchoolYearLabel r.school_year ∧
        next.sectionRef = none ∧
        next.adviser_teacher = none) ∧
    (∀ s p q a b, pySplitDash s.data = [p, q] →
      pyIntChars p = some a → pyIntChars q = some b →
      nextSchoolYearLabel s
        = toString (a + 1) ++ "-" ++ toString (b + 1)) ∧
    (∀ s, (¬ ∃ p q a b, pySplitDash s.data = [p, q] ∧
        pyIntChars p = some a ∧ pyIntChars q = some b) →
      nextSchoolYearLabel s = s) ∧
    (∀ created r status, r.grade_level = 10 → r.remarks = "PROMOTED" →
      studentStatusAfterRecordSave created r status = "GRADUATED") := by
  refine ⟨?_, ?_, ?_, ?_, ?_⟩
  · intro r db h
    unfold promote
    rw [if_pos h]
  · intro r db h hfind next hnext
    have h10 : ¬ (10 ≤ r.grade_level) := not_le.mpr h
    simp only [promote, if_neg h10, hfind, createAcademicRecord] at hnext
    have hx := Option.some.inj hnext
    subst hx
    exact ⟨rfl, rfl, rfl, rfl, rfl⟩
  · intro s p q a b hsplit hp hq
    unfold nextSchoolYearLabel
    rw [hsplit]
    simp [hp, hq]
  · intro s hno
    unfold nextSchoolYearLabel
    cases hsplit : pySplitDash s.data with
    | nil => rfl
    | cons p t =>
      cases t with
      | nil => cases hp : pyIntChars p <;> simp [hp]
      | cons q t2 =>
        cases t2 with
        | nil =>
          cases hp : pyIntChars p with
          | none => simp [hp]
          | some a =>
            cases hq : pyIntChars q with
            | none => simp [hp, hq]
            | some b => exact absurd ⟨p, q, a, b, hsplit, hp, hq⟩ hno
        | cons u t3 =>
          cases hp : pyIntChars p <;> cases hq : pyIntChars q <;>
            simp [hp, hq]
  · intro created r status h1 h2
    simp [studentStatusAfterRecordSave, h1, h2]

/-- C8 witness: promoting a grade-9 record for 2024-2025 against an empty
store creates a grade-10 record for 2025-2026 with section and adviser
unassigned. -/
theorem promote_transition_spec_witness :
    wC7.grade_level < 10 ∧
    emptyDb.records.find? (matchesKey wC7.student (wC7.grade_level + 1)
      (nextSchoolYearLabel wC7.school_year)) = none ∧
    (promote wC7 emptyDb).1 = some wC7next ∧
    (wC7next.student = wC7.student ∧
      wC7next.grade_level = wC7.grade_level + 1 ∧
      wC7next.school_year = nextSchoolYearLabel wC7.school_year ∧
      wC7next.sectionRef = none ∧
      wC7next.adviser_teacher = none) :=
  ⟨by decide, rfl, by decide,
    promote_transition_spec.2.1 wC7 emptyDb (by decide) rfl wC7next
      (by decide)⟩

/-- C10 witness: in a grade-9 record holding a subject at 70.00 recomputed
to 80.00, that subject makes the failing count positive while feeding
80.00 into the average. -/
theorem classifier_failing_uses_original_rating_witness :
    wC10sg ∈ wC10.determinedGrades ∧
    (0 < (wC10.determinedGrades).countP AcademicRecord.isFailingOriginal ∧
      wC10sg.get_final_rating = some 8000 ∧
      wC10sg.get_final_rating ≠ wC10sg.final_rating) :=
  ⟨by decide,
    classifier_failing_uses_original_rating wC10 wC10sg 7000 8000
      (by decide) (by decide) (by decide) (by decide) (by decide)⟩

end DepedSF
